import Mathlib

/-!
# Cloud Foundry provider: service instance, private domain access and config resources

A shallow embedding of `cloudfoundry/resource_cf_service_instance.go`,
`cloudfoundry/resource_cf_private_domain_access.go` and
`cloudfoundry/resource_cf_feature_flags.go`.

* The remote control plane is an explicit world state `W`; every client call
  is a function `W → answer × W`, so two calls may answer differently.
* `schema.ResourceData` is an identity plus a keyed attribute store.
* Go `error` values are the inductive `Error`; a `nil` error is `none`.
* Wall-clock time is abstracted: a poll is given the number of status
  queries that complete before its timeout fires.
* A run-time panic is the inductive `Panic`; a handler that can panic answers
  `Except Panic`.
-/

namespace Cloudfoundry

/-! ## Errors and diagnostics -/

/-- Go `error` values that reach the resource handlers. -/
inductive Error where
  /-- an error answered by the remote client, with its status code -/
  | client (code : Nat) (msg : String)
  /-- an error built by `fmt.Errorf` -/
  | errorf (msg : String)
  /-- an error answered by `json.Unmarshal` -/
  | json (msg : String)
  /-- `resource.TimeoutError` -/
  | timeout (lastState : String) (expected : List String)
  /-- `resource.NotFoundError` -/
  | notFound (retries : Nat)
  /-- `resource.UnexpectedStateError` -/
  | unexpectedState (state : String) (expected : List String)
  /-- the error of `parseID` -/
  | malformedID (id : String)
  deriving DecidableEq, Repr

/-- The type `diag.Diagnostics`: the list of reported errors, `[]` for `nil`. -/
abbrev Diagnostics := List Error

/-- The function `diag.FromErr`: `nil` for a `nil` error, one diagnostic otherwise. -/
def diagFromErr : Option Error → Diagnostics
  | none => []
  | some e => [e]

/-- The method `Diagnostics.HasError`. -/
def Diagnostics.HasError (ds : Diagnostics) : Bool := !ds.isEmpty

/-! ## Remote resources and the client -/

/-- The struct `ccv2.LastOperation` (the fields the provider reads). -/
structure LastOperation where
  Type_ : String
  State : String
  Description : String
  deriving DecidableEq, Repr

/-- The struct `ccv2.ServiceInstance` (the fields the provider reads or writes);
a `nil` slice of tags is `none`. -/
structure ServiceInstance where
  GUID : String
  Name : String
  SpaceGUID : String
  ServicePlanGUID : String
  Tags : Option (List String)
  LastOperation : LastOperation
  deriving DecidableEq, Repr

/-- The struct `ccv2.Domain` (the field the provider reads). -/
structure Domain where
  GUID : String
  deriving DecidableEq, Repr

/-- A `map[string]interface{}` of service parameters: keys with the JSON text of
their values. -/
abbrev Params := List (String × String)

/-- The calls of `session.ClientV2` used by the two resources, over a remote world `W`. -/
structure ClientV2 (W : Type) where
  CreateServiceInstance :
    String → String → String → Params → List String → W → Except Error ServiceInstance × W
  GetServiceInstance : String → W → Except Error ServiceInstance × W
  UpdateServiceInstance : ServiceInstance → Params → W → Except Error ServiceInstance × W
  DeleteServiceInstance : String → Bool → Bool → W → Except Error Bool × W
  SetOrganizationPrivateDomain : String → String → W → Option Error × W
  GetOrganizationPrivateDomains : String → W → Except Error (List Domain) × W
  DeleteOrganizationPrivateDomain : String → String → W → Option Error × W

/-- The struct `managers.Session` (the fields the two resources read). -/
structure Session (W : Type) where
  ClientV2 : ClientV2 W
  PurgeWhenDelete : Bool

/-! ## Resource data -/

/-- A value held by a schema attribute. -/
inductive Value where
  | null
  | str (s : String)
  | bool (b : Bool)
  | list (xs : List String)
  deriving DecidableEq, Repr

/-- The struct `schema.ResourceData`: the identity and the attribute store
(the most recent `Set` of a key comes first). -/
structure ResourceData where
  id : String
  attrs : List (String × Value)
  partialMode : Bool
  timeouts : List (String × Nat)
  deriving DecidableEq, Repr

namespace ResourceData

/-- The method `d.Id()`. -/
def Id (d : ResourceData) : String := d.id

/-- The method `d.SetId(v)`. -/
def SetId (d : ResourceData) (v : String) : ResourceData := { d with id := v }

/-- The method `d.Set(key, value)`. -/
def Set (d : ResourceData) (key : String) (v : Value) : ResourceData :=
  { d with attrs := (key, v) :: d.attrs }

/-- The method `d.Get(key)`; an attribute never set reads as `null`. -/
def Get (d : ResourceData) (key : String) : Value :=
  (d.attrs.lookup key).getD Value.null

/-- The expression `d.Get(key).(string)`; the zero value when unset. -/
def GetString (d : ResourceData) (key : String) : String :=
  match d.Get key with
  | Value.str s => s
  | _ => ""

/-- The expression `d.Get(key).(bool)`; the zero value when unset. -/
def GetBool (d : ResourceData) (key : String) : Bool :=
  match d.Get key with
  | Value.bool b => b
  | _ => false

/-- The expression `d.Get(key).([]interface{})` read as strings; empty when unset. -/
def GetList (d : ResourceData) (key : String) : List String :=
  match d.Get key with
  | Value.list xs => xs
  | _ => []

/-- The method `d.Partial(on)`. -/
def Partial (d : ResourceData) (flag : Bool) : ResourceData := { d with partialMode := flag }

/-- The method `d.Timeout(key)` in seconds; the resource declares
`schema.DefaultTimeout(15 * time.Minute)` for create, update and delete. -/
def Timeout (d : ResourceData) (key : String) : Nat :=
  (d.timeouts.lookup key).getD (15 * 60)

end ResourceData

/-! ## Service instance: read -/

/-- The function `resourceServiceInstanceRead`; `IsErrNotFound` is the package's
not-found test on client errors. -/
def resourceServiceInstanceRead {W : Type} (IsErrNotFound : Error → Bool)
    (session : Session W) (d : ResourceData) (w : W) : (ResourceData × Diagnostics) × W :=
  match session.ClientV2.GetServiceInstance d.Id w with
  | (Except.error err, w1) =>
    if IsErrNotFound err then
      ((d.SetId "", []), w1)
    else
      ((d, diagFromErr (some err)), w1)
  | (Except.ok serviceInstance, w1) =>
    let d1 := d.Set "name" (Value.str serviceInstance.Name)
    let d2 := d1.Set "service_plan" (Value.str serviceInstance.ServicePlanGUID)
    let d3 := d2.Set "space" (Value.str serviceInstance.SpaceGUID)
    match serviceInstance.Tags with
    | some tags => ((d3.Set "tags" (Value.list tags), []), w1)
    | none => ((d3.Set "tags" Value.null, []), w1)

/-! ## The state-change poll of the plugin SDK

The handlers wait with `resource.StateChangeConf.WaitForStateContext`, a function of
the Terraform plugin SDK (`helper/resource`), a dependency of the provider. Its
refresh loop is embedded here with its rules in the order the loop applies them to
the answer of one status query:

1. an error ends the poll with that error;
2. a nil result with an empty target set counts as a target occurrence;
3. any other nil result counts towards `NotFoundChecks`, and one more than that
   many in a row ends the poll with a not-found error;
4. a found result resets that count; a state of the target set ends the poll with
   no error, a state of the pending set goes on polling, and any other state ends
   the poll with an unexpected-state error unless the pending set is empty.

The delay and the poll interval only space the queries; the timeout is the number
of status queries that complete before it fires, after which the poll ends with a
timeout error.
-/

/-- What a `resource.StateRefreshFunc` answers: result (`none` for `nil`), state, error. -/
abbrev RefreshResult (α : Type) := Option α × String × Option Error

/-- The struct `resource.StateChangeConf`; durations are in seconds. -/
structure StateChangeConf (W α : Type) where
  Delay : Nat
  Pending : List String
  Refresh : W → RefreshResult α × W
  Target : List String
  Timeout : Nat
  PollInterval : Nat
  NotFoundChecks : Nat
  ContinuousTargetOccurence : Nat

/-- The loop over `conf.Target` inside the refresh loop: every entry equal to the
current state marks it found and counts one target occurrence; the poll is done
as soon as the count reaches `cto`. Answers (found, targetOccurence, done). -/
def scanTarget (currentState : String) (cto : Nat) : List String → Bool → Nat → Bool × Nat × Bool
  | [], found, targetOccurence => (found, targetOccurence, false)
  | allowed :: rest, found, targetOccurence =>
    if currentState = allowed then
      if cto = targetOccurence + 1 then (true, targetOccurence + 1, true)
      else scanTarget currentState cto rest true (targetOccurence + 1)
    else scanTarget currentState cto rest found targetOccurence

/-- The refresh loop of `WaitForStateContext`. The first argument is the number of
status queries that complete before the timeout fires; then `notfoundTick`,
`targetOccurence` and the state of the last result. -/
def refreshLoop {W α : Type} (conf : StateChangeConf W α) (notFoundChecks cto : Nat) :
    Nat → Nat → Nat → String → W → (Option α × Option Error) × W
  | 0, _, _, lastState, w => ((none, some (Error.timeout lastState conf.Target)), w)
  | fuel + 1, notfoundTick, targetOccurence, _, w =>
    match conf.Refresh w with
    | ((res, currentState, err), w1) =>
      match err with
      | some err => ((res, some err), w1)
      | none =>
        match res with
        | none =>
          if conf.Target.length = 0 then
            if cto = targetOccurence + 1 then ((none, none), w1)
            else refreshLoop conf notFoundChecks cto fuel notfoundTick (targetOccurence + 1)
              currentState w1
          else if notfoundTick + 1 > notFoundChecks then
            ((none, some (Error.notFound (notfoundTick + 1))), w1)
          else refreshLoop conf notFoundChecks cto fuel (notfoundTick + 1) targetOccurence
            currentState w1
        | some r =>
          match scanTarget currentState cto conf.Target false targetOccurence with
          | (_, _, true) => ((some r, none), w1)
          | (found, occ, false) =>
            let found1 := found || conf.Pending.contains currentState
            let occ1 := if conf.Pending.contains currentState then 0 else occ
            if !found1 && conf.Pending.length > 0 then
              ((some r, some (Error.unexpectedState currentState conf.Target)), w1)
            else refreshLoop conf notFoundChecks cto fuel 0 occ1 currentState w1

/-- The method `conf.WaitForStateContext(ctx)`, given the number of status queries
that complete before `conf.Timeout` elapses. A `NotFoundChecks` of 0 defaults to
20 and a `ContinuousTargetOccurence` of 0 to 1. -/
def WaitForStateContext {W α : Type} (conf : StateChangeConf W α) (queries : Nat) (w : W) :
    (Option α × Option Error) × W :=
  refreshLoop conf (if conf.NotFoundChecks = 0 then 20 else conf.NotFoundChecks)
    (if conf.ContinuousTargetOccurence = 0 then 1 else conf.ContinuousTargetOccurence)
    queries 0 0 "" w

/-! ## Service instance: status function and poll configurations -/

/-- The constant `constant.LastOperationSucceeded`. -/
def LastOperationSucceeded : String := "succeeded"

/-- The constant `constant.LastOperationFailed`. -/
def LastOperationFailed : String := "failed"

/-- The call `fmt.Errorf("%s", msg)`: the verb `%s` prints its string operand
unchanged, so the message of the error is `msg`. -/
def errorfS (msg : String) : Error := Error.errorf msg

/-- The function `resourceServiceInstanceStateFunc`. -/
def resourceServiceInstanceStateFunc {W : Type} (IsErrNotFound : Error → Bool)
    (serviceInstanceID operationType : String) (session : Session W) :
    W → RefreshResult ServiceInstance × W := fun w =>
  match session.ClientV2.GetServiceInstance serviceInstanceID w with
  | (Except.error err, w1) =>
    if IsErrNotFound err then ((none, "", none), w1)
    else ((none, "", some err), w1)
  | (Except.ok serviceInstance, w1) =>
    if serviceInstance.LastOperation.Type_ = operationType then
      let stateStr := serviceInstance.LastOperation.State
      if serviceInstance.LastOperation.State = LastOperationSucceeded then
        ((some serviceInstance, stateStr, none), w1)
      else if serviceInstance.LastOperation.State = LastOperationFailed then
        ((none, stateStr, some (errorfS serviceInstance.LastOperation.Description)), w1)
      else ((some serviceInstance, stateStr, none), w1)
    else ((some serviceInstance, "wrong operation", none), w1)

/-- The variable `resourceServiceInstancePendingStates`. -/
def resourceServiceInstancePendingStates : List String := ["in progress"]

/-- The variable `resourceServiceInstanceSuccessStates`. -/
def resourceServiceInstanceSuccessStates : List String := ["succeeded"]

/-- The `stateConf` built by `resourceServiceInstanceCreate`. -/
def createStateConf {W : Type} (IsErrNotFound : Error → Bool) (session : Session W)
    (d : ResourceData) (guid : String) : StateChangeConf W ServiceInstance :=
  { Pending := resourceServiceInstancePendingStates
    Target := resourceServiceInstanceSuccessStates
    Refresh := resourceServiceInstanceStateFunc IsErrNotFound guid "create" session
    Timeout := d.Timeout "create"
    PollInterval := 30
    Delay := 5
    NotFoundChecks := 6
    ContinuousTargetOccurence := 0 }

/-- The `stateConf` built by `resourceServiceInstanceUpdate`. -/
def updateStateConf {W : Type} (IsErrNotFound : Error → Bool) (session : Session W)
    (d : ResourceData) (id : String) : StateChangeConf W ServiceInstance :=
  { Pending := resourceServiceInstancePendingStates
    Target := resourceServiceInstanceSuccessStates
    Refresh := resourceServiceInstanceStateFunc IsErrNotFound id "update" session
    Timeout := d.Timeout "update"
    PollInterval := 30
    Delay := 5
    NotFoundChecks := 3
    ContinuousTargetOccurence := 0 }

/-- The `stateConf` built by `resourceServiceInstanceDelete`. -/
def deleteStateConf {W : Type} (IsErrNotFound : Error → Bool) (session : Session W)
    (d : ResourceData) (id : String) : StateChangeConf W ServiceInstance :=
  { Pending := resourceServiceInstancePendingStates
    Target := []
    Refresh := resourceServiceInstanceStateFunc IsErrNotFound id "delete" session
    Timeout := d.Timeout "delete"
    PollInterval := 30
    Delay := 5
    NotFoundChecks := 0
    ContinuousTargetOccurence := 0 }

/-! ## Service instance: create, update, delete, import -/

/-- The decoding step shared by create and update: `json.Unmarshal` runs only on a
non-empty `json_params`, into the map `params`. -/
def decodeParams (jsonUnmarshal : String → Params → Except Error Params)
    (jsonParameters : String) (params : Params) : Except Error Params :=
  if jsonParameters.length > 0 then jsonUnmarshal jsonParameters params
  else Except.ok params

/-- The function `resourceServiceInstanceCreate`. `queries` is the number of
status queries that complete before the create timeout fires. -/
def resourceServiceInstanceCreate {W : Type} (IsErrNotFound : Error → Bool)
    (jsonUnmarshal : String → Params → Except Error Params) (queries : Nat)
    (session : Session W) (d : ResourceData) (w : W) : (ResourceData × Diagnostics) × W :=
  let name := d.GetString "name"
  let servicePlan := d.GetString "service_plan"
  let space := d.GetString "space"
  let jsonParameters := d.GetString "json_params"
  let tags := d.GetList "tags"
  match decodeParams jsonUnmarshal jsonParameters [] with
  | Except.error err => ((d, diagFromErr (some err)), w)
  | Except.ok params =>
    match session.ClientV2.CreateServiceInstance space servicePlan name params tags w with
    | (Except.error err, w1) => ((d, diagFromErr (some err)), w1)
    | (Except.ok si, w1) =>
      match WaitForStateContext (createStateConf IsErrNotFound session d si.GUID) queries w1 with
      | ((_, some err), w2) => ((d, diagFromErr (some err)), w2)
      | ((_, none), w2) => ((d.SetId si.GUID, []), w2)

/-- The function `resourceServiceInstanceUpdate`; `none` for a `nil` session. -/
def resourceServiceInstanceUpdate {W : Type} (IsErrNotFound : Error → Bool)
    (jsonUnmarshal : String → Params → Except Error Params) (queries : Nat)
    (session : Option (Session W)) (d : ResourceData) (w : W) :
    (ResourceData × Diagnostics) × W :=
  match session with
  | none => ((d, [Error.errorf "client is nil"]), w)
  | some session =>
    let d0 := d.Partial true
    let id := d0.Id
    let name := d0.GetString "name"
    let servicePlan := d0.GetString "service_plan"
    let jsonParameters := d0.GetString "json_params"
    match decodeParams jsonUnmarshal jsonParameters [] with
    | Except.error err => ((d0, diagFromErr (some err)), w)
    | Except.ok params =>
      let tags := d0.GetList "tags"
      match session.ClientV2.UpdateServiceInstance
          { GUID := id, Name := name, ServicePlanGUID := servicePlan, SpaceGUID := "",
            Tags := if tags.isEmpty then none else some tags,
            LastOperation := { Type_ := "", State := "", Description := "" } }
          params w with
      | (Except.error err, w1) => ((d0, diagFromErr (some err)), w1)
      | (Except.ok _, w1) =>
        match WaitForStateContext (updateStateConf IsErrNotFound session d0 id) queries w1 with
        | ((_, some err), w2) => ((d0, diagFromErr (some err)), w2)
        | ((_, none), w2) => ((d0.Partial false, []), w2)

/-- The function `resourceServiceInstanceDelete`. -/
def resourceServiceInstanceDelete {W : Type} (IsErrNotFound : Error → Bool) (queries : Nat)
    (session : Session W) (d : ResourceData) (w : W) : (ResourceData × Diagnostics) × W :=
  let id := d.Id
  let recursiveDelete := d.GetBool "recursive_delete"
  match session.ClientV2.DeleteServiceInstance id recursiveDelete session.PurgeWhenDelete w with
  | (Except.error err, w1) => ((d, diagFromErr (some err)), w1)
  | (Except.ok async, w1) =>
    if !async then ((d, []), w1)
    else
      match WaitForStateContext (deleteStateConf IsErrNotFound session d id) queries w1 with
      | ((_, some err), w2) => ((d, diagFromErr (some err)), w2)
      | ((_, none), w2) => ((d, []), w2)

/-- Modelled from the spec: the package helper `ImportReadContext` is missing from
the sources at hand. Import is "equivalent to Read": the state function it builds
runs the read callback and answers the resource data when the read reports no
error, and an error otherwise. -/
def ImportReadContext {W : Type}
    (read : Session W → ResourceData → W → (ResourceData × Diagnostics) × W)
    (session : Session W) (d : ResourceData) (w : W) :
    Except Error (List ResourceData) × W :=
  match read session d w with
  | ((d1, []), w1) => (Except.ok [d1], w1)
  | ((_, err :: _), w1) => (Except.error err, w1)

/-- A `[]string` handed to `d.Set`: a `nil` slice is stored as the empty list. -/
def Value.ofStrings : Option (List String) → Value
  | none => Value.list []
  | some xs => Value.list xs

/-- The function `resourceServiceInstanceImport`. -/
def resourceServiceInstanceImport {W : Type} (IsErrNotFound : Error → Bool)
    (session : Session W) (d : ResourceData) (w : W) :
    Except Error (List ResourceData) × W :=
  match session.ClientV2.GetServiceInstance d.Id w with
  | (Except.error err, w1) => (Except.error err, w1)
  | (Except.ok serviceinstance, w1) =>
    let d1 := d.Set "name" (Value.str serviceinstance.Name)
    let d2 := d1.Set "service_plan" (Value.str serviceinstance.ServicePlanGUID)
    let d3 := d2.Set "space" (Value.str serviceinstance.SpaceGUID)
    let d4 := d3.Set "tags" (Value.ofStrings serviceinstance.Tags)
    let d5 := d4.Set "replace_on_service_plan_change" (Value.bool false)
    let d6 := d5.Set "replace_on_params_change" (Value.bool false)
    ImportReadContext (resourceServiceInstanceRead IsErrNotFound) session d6 w1

/-! ## Composite identities -/

/-- Splitting a string (as its characters) at every occurrence of a separator
character; a string with no separator is a single part. -/
def splitParts (sep : Char) : List Char → List (List Char)
  | [] => [[]]
  | c :: cs =>
    if c = sep then [] :: splitParts sep cs
    else
      match splitParts sep cs with
      | [] => [[c]]
      | part :: parts => (c :: part) :: parts

/-- Modelled from the spec: the package helper `computeID` is missing from the
sources at hand. A composite identity is "an opaque string deterministically
derived from an ordered list of parts": the two parts in order, joined by the
separator. -/
def computeID (sep : Char) (first second : String) : String :=
  String.mk (first.data ++ sep :: second.data)

/-- Modelled from the spec: the package helper `parseID` is missing from the
sources at hand. Decoding "fails with a MalformedIdentityError when the string does
not split into the expected number of parts", here two; the parts answered with
the error are the zero values. -/
def parseID (sep : Char) (id : String) : String × String × Option Error :=
  match splitParts sep id.data with
  | [first, second] => (String.mk first, String.mk second, none)
  | _ => ("", "", some (Error.malformedID id))

/-! ## Private domain access -/

/-- The function `resourcePrivateDomainAccessCreate`, over the helper `computeID`. -/
def resourcePrivateDomainAccessCreate {W : Type} (computeID : String → String → String)
    (session : Session W) (d : ResourceData) (w : W) : (ResourceData × Diagnostics) × W :=
  let domain := d.GetString "domain"
  let org := d.GetString "org"
  match session.ClientV2.SetOrganizationPrivateDomain domain org w with
  | (some err, w1) => ((d, diagFromErr (some err)), w1)
  | (none, w1) => ((d.SetId (computeID org domain), []), w1)

/-- The body of `resourcePrivateDomainAccessRead` after the identity is decoded:
fetch the private domains of the org and look for the domain among them. -/
def readPrivateDomainAccess {W : Type} (orgGuid domainGuid : String)
    (session : Session W) (d : ResourceData) (w : W) : (ResourceData × Diagnostics) × W :=
  match session.ClientV2.GetOrganizationPrivateDomains orgGuid w with
  | (Except.error err, w1) => ((d, diagFromErr (some err)), w1)
  | (Except.ok domains, w1) =>
    let found := domains.any (fun domain => domain.GUID = domainGuid)
    if !found then ((d.SetId "", []), w1)
    else (((d.Set "org" (Value.str orgGuid)).Set "domain" (Value.str domainGuid), []), w1)

/-- The function `resourcePrivateDomainAccessRead`, over the helper `parseID`; the
error answered by `parseID` is dropped. -/
def resourcePrivateDomainAccessRead {W : Type} (parseID : String → String × String × Option Error)
    (session : Session W) (d : ResourceData) (w : W) : (ResourceData × Diagnostics) × W :=
  let id := d.Id
  match parseID id with
  | (orgGuid, domainGuid, _) => readPrivateDomainAccess orgGuid domainGuid session d w

/-- The function `resourcePrivateDomainAccessDelete`, over the helper `parseID`; the
error answered by `parseID` is dropped. -/
def resourcePrivateDomainAccessDelete {W : Type}
    (parseID : String → String × String × Option Error)
    (session : Session W) (d : ResourceData) (w : W) : (ResourceData × Diagnostics) × W :=
  let id := d.Id
  match parseID id with
  | (org, domain, _) =>
    match session.ClientV2.DeleteOrganizationPrivateDomain org domain w with
    | (err, w1) => ((d, diagFromErr err), w1)

/-- The importer of the private domain access resource:
`ImportReadContext(resourcePrivateDomainAccessRead)`. -/
def resourcePrivateDomainAccessImport {W : Type}
    (parseID : String → String × String × Option Error)
    (session : Session W) (d : ResourceData) (w : W) : Except Error (List ResourceData) × W :=
  ImportReadContext (resourcePrivateDomainAccessRead parseID) session d w

/-! ## Service instance: schema and plan-time replacement rules -/

/-- The value types of `schema.ValueType` used by the service instance. -/
inductive ValueType where
  | TypeString
  | TypeBool
  | TypeList
  deriving DecidableEq, Repr

/-- The zero value of a schema type. -/
def ValueType.zero : ValueType → Value
  | ValueType.TypeString => Value.str ""
  | ValueType.TypeBool => Value.bool false
  | ValueType.TypeList => Value.list []

/-- The struct `schema.Schema` (the fields the service instance declares). -/
structure Schema where
  Type_ : ValueType
  Required : Bool
  Optional : Bool
  ForceNew : Bool
  Default : Option Value
  deriving DecidableEq, Repr

/-- The `Schema` map of `resourceServiceInstance`. -/
def resourceServiceInstanceSchema : List (String × Schema) :=
  [ ("name",
      { Type_ := ValueType.TypeString, Required := true, Optional := false,
        ForceNew := false, Default := none }),
    ("service_plan",
      { Type_ := ValueType.TypeString, Required := true, Optional := false,
        ForceNew := false, Default := none }),
    ("space",
      { Type_ := ValueType.TypeString, Required := true, Optional := false,
        ForceNew := true, Default := none }),
    ("json_params",
      { Type_ := ValueType.TypeString, Required := false, Optional := true,
        ForceNew := false, Default := some (Value.str "") }),
    ("replace_on_service_plan_change",
      { Type_ := ValueType.TypeBool, Required := false, Optional := true,
        ForceNew := false, Default := some (Value.bool false) }),
    ("replace_on_params_change",
      { Type_ := ValueType.TypeBool, Required := false, Optional := true,
        ForceNew := false, Default := some (Value.bool false) }),
    ("tags",
      { Type_ := ValueType.TypeList, Required := false, Optional := true,
        ForceNew := false, Default := none }),
    ("recursive_delete",
      { Type_ := ValueType.TypeBool, Required := false, Optional := true,
        ForceNew := false, Default := some (Value.bool false) }) ]

/-- The struct `schema.ResourceDiff` at plan time: the resource schema, the prior
state, the planned configuration (only the attributes that are set) and the keys
flagged by `ForceNew`. -/
structure ResourceDiff where
  schema : List (String × Schema)
  state : List (String × Value)
  config : List (String × Value)
  forcedNewKeys : List String
  deriving DecidableEq, Repr

namespace ResourceDiff

/-- The old value of a key: the prior state, the zero value of the type when the
state has none; a key outside the schema reads as nil. -/
def GetOld (d : ResourceDiff) (key : String) : Value :=
  match d.schema.lookup key with
  | none => Value.null
  | some sch => (d.state.lookup key).getD sch.Type_.zero

/-- The method `d.Get(key)`: the planned value, the schema `Default` when the
configuration has none, else the zero value of the type; a key outside the schema
reads as nil. -/
def Get (d : ResourceDiff) (key : String) : Value :=
  match d.schema.lookup key with
  | none => Value.null
  | some sch => (d.config.lookup key).getD (sch.Default.getD sch.Type_.zero)

/-- The expression `d.Get(key).(bool)`. -/
def GetBool (d : ResourceDiff) (key : String) : Bool :=
  match d.Get key with
  | Value.bool b => b
  | _ => false

/-- The method `d.HasChange(key)`: the old and new values differ. -/
def HasChange (d : ResourceDiff) (key : String) : Bool :=
  decide (d.GetOld key ≠ d.Get key)

/-- The method `d.ForceNew(key)`: an error when the key has no change or is not a
key of the schema, else the key is flagged as forcing a new resource. -/
def ForceNew (d : ResourceDiff) (key : String) : Except Error ResourceDiff :=
  if !d.HasChange key then
    Except.error (Error.errorf ("ForceNew: No changes for " ++ key))
  else
    match d.schema.lookup key with
    | none => Except.error (Error.errorf ("ForceNew: " ++ key ++ " is not a valid key"))
    | some _ => Except.ok { d with forcedNewKeys := key :: d.forcedNewKeys }

/-- Whether the planned change of a key requires destroy-and-recreate: the key
changed and is `ForceNew`, by its schema or by a `ForceNew` call. -/
def RequiresNew (d : ResourceDiff) (key : String) : Bool :=
  d.HasChange key &&
    (((d.schema.lookup key).map (fun sch => sch.ForceNew)).getD false ||
      d.forcedNewKeys.contains key)

end ResourceDiff

/-- The type `schema.CustomizeDiffFunc`: it may flag keys and may answer an error. -/
abbrev CustomizeDiffFunc := ResourceDiff → ResourceDiff × Option Error

/-- The function `customdiff.ForceNewIf`: when the condition holds it calls
`d.ForceNew(key)`, whose error is only logged; it never answers an error. -/
def ForceNewIf (key : String) (f : ResourceDiff → Bool) : CustomizeDiffFunc := fun d =>
  if f d then
    match d.ForceNew key with
    | Except.ok d1 => (d1, none)
    | Except.error _ => (d, none)
  else (d, none)

/-- The function `customdiff.All`: it runs every function in turn on the same diff
and collects their errors. -/
def All : List CustomizeDiffFunc → ResourceDiff → ResourceDiff × List Error
  | [], d => (d, [])
  | f :: fs, d =>
    match f d with
    | (d1, err) =>
      match All fs d1 with
      | (d2, errs) => (d2, err.toList ++ errs)

/-- The `CustomizeDiff` of `resourceServiceInstance`. -/
def resourceServiceInstanceCustomizeDiff : ResourceDiff → ResourceDiff × List Error :=
  All [
    ForceNewIf "service_plan" (fun d =>
      if d.GetBool "replace_on_service_plan_change" then true else false),
    ForceNewIf "params" (fun d =>
      if d.GetBool "replace_on_params_change" then true else false) ]

/-- A plan of the service instance from a prior state to a configuration. -/
def planOf (state config : List (String × Value)) : ResourceDiff :=
  { schema := resourceServiceInstanceSchema, state := state, config := config,
    forcedNewKeys := [] }

/-! ## Config resource: feature flags -/

/-- The constant `FlagStatusEnabled`. -/
def FlagStatusEnabled : String := "enabled"

/-- The constant `FlagStatusDisabled`. -/
def FlagStatusDisabled : String := "disabled"

/-- The struct `ccv2.FeatureFlag`. -/
structure FeatureFlag where
  Name : String
  Enabled : Bool
  deriving DecidableEq, Repr

/-- A run-time panic of the Go program. -/
inductive Panic where
  /-- an index expression outside the bounds of its slice -/
  | indexOutOfRange (index length : Nat)
  /-- a field read through a nil pointer -/
  | nilDereference
  deriving DecidableEq, Repr

/-- One `feature_flags` block as `d.Get` hands it over: a `map[string]interface{}`
from flag names to string values, listed in the order the map is ranged over. -/
abbrev FlagsBlock := List (String × String)

/-- The calls of `session.ClientV2` used by the config resource, over a remote
world `W`. -/
structure ConfigClientV2 (W : Type) where
  SetConfigFeatureFlags : FeatureFlag → W → Option Error × W
  GetConfigFeatureFlags : W → Except Error (List FeatureFlag) × W

/-- The struct `managers.Session` as the config resource uses it. -/
structure ConfigSession (W : Type) where
  ClientV2 : ConfigClientV2 W

/-- The struct `schema.ResourceData` of the config resource: the identity and the
attribute `feature_flags` (a list of at most one block), as the prior state has it
and as `d.Get` reads it. -/
structure ConfigData where
  id : String
  old : List FlagsBlock
  new : List FlagsBlock
  deriving DecidableEq, Repr

namespace ConfigData

/-- The method `d.SetId(v)`. -/
def SetId (d : ConfigData) (v : String) : ConfigData := { d with id := v }

/-- The call `d.Get("feature_flags")`. -/
def Get (d : ConfigData) : List FlagsBlock := d.new

/-- The call `d.GetOk("feature_flags")`: the value, and whether it is set to
something other than the zero value of its type, the empty list. -/
def GetOk (d : ConfigData) : List FlagsBlock × Bool := (d.new, !d.new.isEmpty)

/-- The call `d.HasChange("feature_flags")`: the old and new values differ. -/
def HasChange (d : ConfigData) : Bool := decide (d.old ≠ d.new)

/-- The call `d.Set("feature_flags", v)`. -/
def Set (d : ConfigData) (v : List FlagsBlock) : ConfigData := { d with new := v }

end ConfigData

/-- The function `getFeatureFlags`: it indexes element 0 of the list, which panics
on an empty list, and turns every flag of that block whose value is not empty into
a `ccv2.FeatureFlag`. -/
def getFeatureFlags (v : List FlagsBlock) : Except Panic (List FeatureFlag) :=
  match v.get? 0 with
  | none => Except.error (Panic.indexOutOfRange 0 v.length)
  | some flags =>
    Except.ok (flags.filterMap (fun kv =>
      if kv.2.length > 0 then
        some { Name := kv.1, Enabled := kv.2 == FlagStatusEnabled }
      else none))

/-- The loop `for _, ff := range ffs` of create and update: it sets the flags in
turn and stops at the first error. -/
def setFeatureFlags {W : Type} (client : ConfigClientV2 W) :
    List FeatureFlag → W → Option Error × W
  | [], w => (none, w)
  | ff :: rest, w =>
    match client.SetConfigFeatureFlags ff w with
    | (some err, w1) => (some err, w1)
    | (none, w1) => setFeatureFlags client rest w1

/-- The function `resourceConfigRead`; `none` for a `nil` session. -/
def resourceConfigRead {W : Type} (session : Option (ConfigSession W)) (d : ConfigData)
    (w : W) : (ConfigData × Diagnostics) × W :=
  match session with
  | none => ((d, [Error.errorf "client is nil"]), w)
  | some session =>
    match session.ClientV2.GetConfigFeatureFlags w with
    | (Except.error err, w1) => ((d, diagFromErr (some err)), w1)
    | (Except.ok featureFlags, w1) =>
      let flags := featureFlags.map (fun ff =>
        (ff.Name, if ff.Enabled then FlagStatusEnabled else FlagStatusDisabled))
      ((d.Set [flags], diagFromErr none), w1)

/-- The function `resourceConfigCreate`; `none` for a `nil` session. A panic of the
program is `Except.error`. -/
def resourceConfigCreate {W : Type} (session : Option (ConfigSession W)) (d : ConfigData)
    (w : W) : Except Panic ((ConfigData × Diagnostics) × W) :=
  match session with
  | none => Except.ok ((d, [Error.errorf "client is nil"]), w)
  | some session =>
    match d.GetOk with
    | (v, true) =>
      match getFeatureFlags v with
      | Except.error p => Except.error p
      | Except.ok ffs =>
        match setFeatureFlags session.ClientV2 ffs w with
        | (some err, w1) => Except.ok ((d, diagFromErr (some err)), w1)
        | (none, w1) => Except.ok (resourceConfigRead (some session) (d.SetId "config") w1)
    | (_, false) => Except.ok (resourceConfigRead (some session) (d.SetId "config") w)

/-- The function `resourceConfigUpdate`; `none` for a `nil` session, which the
function does not test and reads only when it has a flag to set. A panic of the
program is `Except.error`. -/
def resourceConfigUpdate {W : Type} (session : Option (ConfigSession W)) (d : ConfigData)
    (w : W) : Except Panic ((ConfigData × Diagnostics) × W) :=
  if d.HasChange then
    match getFeatureFlags d.Get with
    | Except.error p => Except.error p
    | Except.ok ffs =>
      match ffs, session with
      | [], _ => Except.ok ((d, []), w)
      | _ :: _, none => Except.error Panic.nilDereference
      | ff :: rest, some session =>
        match setFeatureFlags session.ClientV2 (ff :: rest) w with
        | (some err, w1) => Except.ok ((d, diagFromErr (some err)), w1)
        | (none, w1) => Except.ok ((d, []), w1)
  else Except.ok ((d, []), w)

/-- A config client for concrete runs: the world is the log of the flags set so
far (most recent first), and the remote reports one enabled flag. -/
def loggingConfigClient : ConfigClientV2 (List String) where
  SetConfigFeatureFlags := fun ff w => (none, ff.Name :: w)
  GetConfigFeatureFlags := fun w =>
    (Except.ok [{ Name := "user_org_creation", Enabled := true }], w)

/-- Config data after the `feature_flags` block is taken out of the configuration:
the prior state holds one block, the new value is the empty list. -/
def removedBlockData : ConfigData :=
  { id := "config", old := [[("user_org_creation", "enabled")]], new := [] }

/-- The session over the logging config client. -/
def loggingConfigSession : ConfigSession (List String) := { ClientV2 := loggingConfigClient }

/-! ## A scripted remote world for concrete runs -/

/-- A remote world with scripted answers: the answers still to be given to
`GetServiceInstance`, the answers of the other calls, and the log of the calls
made so far (most recent first). -/
structure Script where
  gets : List (Except Error ServiceInstance)
  create : Except Error ServiceInstance
  delete : Except Error Bool
  domains : Except Error (List Domain)
  calls : List String

/-- Record a call in the log. -/
def Script.record (w : Script) (call : String) : Script := { w with calls := call :: w.calls }

/-- The client over a scripted world; `GetServiceInstance` answers 404 once the
script is used up. -/
def scriptedClient : ClientV2 Script where
  CreateServiceInstance := fun _ _ name _ _ w => (w.create, w.record ("create " ++ name))
  GetServiceInstance := fun id w =>
    match w.gets with
    | [] => (Except.error (Error.client 404 "not found"), w.record ("get " ++ id))
    | a :: rest => (a, { w.record ("get " ++ id) with gets := rest })
  UpdateServiceInstance := fun si _ w => (Except.ok si, w.record ("update " ++ si.GUID))
  DeleteServiceInstance := fun id _ _ w => (w.delete, w.record ("delete " ++ id))
  SetOrganizationPrivateDomain := fun domain org w =>
    (none, w.record ("set-domain " ++ domain ++ " " ++ org))
  GetOrganizationPrivateDomains := fun org w => (w.domains, w.record ("get-domains " ++ org))
  DeleteOrganizationPrivateDomain := fun org domain w =>
    (none, w.record ("delete-domain " ++ org ++ " " ++ domain))

/-- The session over the scripted world. -/
def scriptedSession : Session Script := { ClientV2 := scriptedClient, PurgeWhenDelete := false }

/-- A not-found test for concrete runs: client errors with status 404. -/
def is404 : Error → Bool
  | Error.client 404 _ => true
  | _ => false

/-- A scripted world with the given answers to `GetServiceInstance`. -/
def scriptOf (gets : List (Except Error ServiceInstance)) : Script :=
  { gets := gets, create := Except.error (Error.client 500 "no create"),
    delete := Except.ok true, domains := Except.ok [], calls := [] }

/-- A service instance with the given last operation. -/
def instanceWith (type state description : String) : ServiceInstance :=
  { GUID := "guid-1", Name := "db", SpaceGUID := "space-1", ServicePlanGUID := "plan-1",
    Tags := some ["t1"],
    LastOperation := { Type_ := type, State := state, Description := description } }

/-- Resource data with the given identity and no attribute set. -/
def dataWithId (id : String) : ResourceData :=
  { id := id, attrs := [], partialMode := false, timeouts := [] }

/-- Resource data of a private domain access with the given org and domain. -/
def accessData (org domain : String) : ResourceData :=
  ((dataWithId "").Set "org" (Value.str org)).Set "domain" (Value.str domain)

/-- A decoder for concrete runs: it accepts only the empty JSON object. -/
def unmarshalEmptyObject (text : String) (params : Params) : Except Error Params :=
  if text = "{}" then Except.ok params else Except.error (Error.json "invalid character")

/-- A scripted world whose create call answers a fresh instance, followed by the
given answers to `GetServiceInstance`. -/
def scriptOfCreate (gets : List (Except Error ServiceInstance)) : Script :=
  { scriptOf gets with create := Except.ok (instanceWith "create" "in progress" "") }

/-! # Theorems -/

/-! ## Service instance: read -/

/-- C1: when `GetServiceInstance` answers an error, `resourceServiceInstanceRead`
clears the identity and reports no error if the error is not-found, and otherwise
reports that error and leaves the resource data (identity included) unchanged. -/
theorem resourceServiceInstanceRead_on_remote_error {W : Type} (IsErrNotFound : Error → Bool)
    (session : Session W) (d : ResourceData) (w w1 : W) (err : Error)
    (hget : session.ClientV2.GetServiceInstance d.Id w = (Except.error err, w1)) :
    (IsErrNotFound err = true →
      resourceServiceInstanceRead IsErrNotFound session d w = ((d.SetId "", []), w1) ∧
      (d.SetId "").Id = "") ∧
    (IsErrNotFound err = false →
      resourceServiceInstanceRead IsErrNotFound session d w = ((d, [err]), w1)) := by
  constructor
  · intro h
    refine ⟨?_, rfl⟩
    unfold resourceServiceInstanceRead
    rw [hget]
    simp [h]
  · intro h
    unfold resourceServiceInstanceRead
    rw [hget]
    simp [h, diagFromErr]

/-- Witness of C1: a stored identity whose remote answers 404, and one whose remote
answers a 500 error. -/
theorem resourceServiceInstanceRead_on_remote_error_witness :
    (resourceServiceInstanceRead is404 scriptedSession (dataWithId "guid-1") (scriptOf [])).1
        = ((dataWithId "guid-1").SetId "", []) ∧
    (resourceServiceInstanceRead is404 scriptedSession (dataWithId "guid-1")
        (scriptOf [Except.error (Error.client 500 "boom")])).1
        = (dataWithId "guid-1", [Error.client 500 "boom"]) :=
  ⟨by
      rw [((resourceServiceInstanceRead_on_remote_error is404 scriptedSession
        (dataWithId "guid-1") (scriptOf []) _ _ rfl).1 rfl).1],
    by
      rw [(resourceServiceInstanceRead_on_remote_error is404 scriptedSession
        (dataWithId "guid-1") (scriptOf [Except.error (Error.client 500 "boom")]) _ _ rfl).2 rfl]⟩

/-! ## The poll: one-step lemmas -/

/-- A status query that answers an error ends the poll with that error. -/
theorem refreshLoop_of_error {W α : Type} (conf : StateChangeConf W α) (nfc cto fuel nt occ : Nat)
    (ls : String) (w w1 : W) (res : Option α) (st : String) (err : Error)
    (h : conf.Refresh w = ((res, st, some err), w1)) :
    refreshLoop conf nfc cto (fuel + 1) nt occ ls w = ((res, some err), w1) := by
  rw [refreshLoop, h]

/-- With an empty target set, a first status query that answers no result and no
error ends the poll with no error. -/
theorem refreshLoop_of_absent {W α : Type} (conf : StateChangeConf W α) (nfc fuel nt : Nat)
    (ls : String) (w w1 : W) (st : String)
    (h : conf.Refresh w = ((none, st, none), w1)) (ht : conf.Target = []) :
    refreshLoop conf nfc 1 (fuel + 1) nt 0 ls w = ((none, none), w1) := by
  rw [refreshLoop, h]
  simp [ht]

/-- A found result whose state is in neither the target set nor the non-empty
pending set ends the poll with an unexpected-state error. -/
theorem refreshLoop_of_unexpected {W α : Type} (conf : StateChangeConf W α)
    (nfc cto fuel nt occ : Nat) (ls : String) (w w1 : W) (r : α) (st : String)
    (h : conf.Refresh w = ((some r, st, none), w1))
    (ht : scanTarget st cto conf.Target false occ = (false, occ, false))
    (hp : conf.Pending.contains st = false) (hne : conf.Pending ≠ []) :
    refreshLoop conf nfc cto (fuel + 1) nt occ ls w
      = ((some r, some (Error.unexpectedState st conf.Target)), w1) := by
  rw [refreshLoop, h]
  simp only [ht, hp]
  have : conf.Pending.length > 0 := List.length_pos.mpr hne
  simp [this]

/-! ## Service instance: the status function -/

/-- The status function on a query error. -/
theorem stateFunc_of_error {W : Type} (IsErrNotFound : Error → Bool) (id operationType : String)
    (session : Session W) (w w1 : W) (err : Error)
    (hget : session.ClientV2.GetServiceInstance id w = (Except.error err, w1)) :
    resourceServiceInstanceStateFunc IsErrNotFound id operationType session w
      = if IsErrNotFound err then ((none, "", none), w1) else ((none, "", some err), w1) := by
  simp only [resourceServiceInstanceStateFunc, hget]

/-- The status function on a fetched instance. -/
theorem stateFunc_of_ok {W : Type} (IsErrNotFound : Error → Bool) (id operationType : String)
    (session : Session W) (w w1 : W) (si : ServiceInstance)
    (hget : session.ClientV2.GetServiceInstance id w = (Except.ok si, w1)) :
    resourceServiceInstanceStateFunc IsErrNotFound id operationType session w
      = if si.LastOperation.Type_ = operationType then
          if si.LastOperation.State = LastOperationSucceeded then
            ((some si, si.LastOperation.State, none), w1)
          else if si.LastOperation.State = LastOperationFailed then
            ((none, si.LastOperation.State, some (errorfS si.LastOperation.Description)), w1)
          else ((some si, si.LastOperation.State, none), w1)
        else ((some si, "wrong operation", none), w1) := by
  simp only [resourceServiceInstanceStateFunc, hget]

/-- C2: when the remote delete reports an asynchronous deletion and the first
status query answers not-found, the status function for operation type "delete"
answers a nil result with no error, the delete poll has an empty target set, and
`resourceServiceInstanceDelete` completes with no error (the timeout leaving room
for that one query). -/
theorem resourceServiceInstanceDelete_of_absent {W : Type} (IsErrNotFound : Error → Bool)
    (queries : Nat) (session : Session W) (d : ResourceData) (w w1 w2 : W) (err : Error)
    (hdel : session.ClientV2.DeleteServiceInstance d.Id (d.GetBool "recursive_delete")
      session.PurgeWhenDelete w = (Except.ok true, w1))
    (hget : session.ClientV2.GetServiceInstance d.Id w1 = (Except.error err, w2))
    (hnf : IsErrNotFound err = true) (hq : 0 < queries) :
    resourceServiceInstanceStateFunc IsErrNotFound d.Id "delete" session w1
      = ((none, "", none), w2) ∧
    (deleteStateConf IsErrNotFound session d d.Id).Target = [] ∧
    resourceServiceInstanceDelete IsErrNotFound queries session d w = ((d, []), w2) := by
  have hsf : resourceServiceInstanceStateFunc IsErrNotFound d.Id "delete" session w1
      = ((none, "", none), w2) := by
    rw [stateFunc_of_error IsErrNotFound d.Id "delete" session w1 w2 err hget]
    simp [hnf]
  refine ⟨hsf, rfl, ?_⟩
  obtain ⟨n, rfl⟩ : ∃ n, queries = n + 1 := ⟨queries - 1, by omega⟩
  have hpoll : WaitForStateContext (deleteStateConf IsErrNotFound session d d.Id) (n + 1) w1
      = ((none, none), w2) :=
    refreshLoop_of_absent (deleteStateConf IsErrNotFound session d d.Id) 20 n 0 "" w1 w2 ""
      hsf rfl
  unfold resourceServiceInstanceDelete
  simp only [hdel, hpoll]
  simp

/-- Witness of C2: an asynchronous delete whose first status query answers 404. -/
theorem resourceServiceInstanceDelete_of_absent_witness :
    (resourceServiceInstanceDelete is404 1 scriptedSession (dataWithId "guid-1")
      (scriptOf [])).1 = (dataWithId "guid-1", []) := by
  rw [(resourceServiceInstanceDelete_of_absent is404 1 scriptedSession (dataWithId "guid-1")
    (scriptOf []) _ _ _ rfl rfl rfl (by decide)).2.2]

/-- C3: when the fetched instance's last operation has the awaited type and state
"failed" with description D, the status function answers a nil result, the state
"failed" and an error whose message is exactly D; every poll that uses it then ends
with that error (the timeout leaving room for the query). -/
theorem stateFunc_failed_carries_description {W : Type} (IsErrNotFound : Error → Bool)
    (id operationType : String) (session : Session W) (w w1 : W) (si : ServiceInstance)
    (hget : session.ClientV2.GetServiceInstance id w = (Except.ok si, w1))
    (htype : si.LastOperation.Type_ = operationType)
    (hstate : si.LastOperation.State = "failed") :
    resourceServiceInstanceStateFunc IsErrNotFound id operationType session w
      = ((none, "failed", some (Error.errorf si.LastOperation.Description)), w1) ∧
    ∀ (conf : StateChangeConf W ServiceInstance) (queries : Nat),
      conf.Refresh = resourceServiceInstanceStateFunc IsErrNotFound id operationType session →
      0 < queries →
      WaitForStateContext conf queries w
        = ((none, some (Error.errorf si.LastOperation.Description)), w1) := by
  have hsf : resourceServiceInstanceStateFunc IsErrNotFound id operationType session w
      = ((none, "failed", some (Error.errorf si.LastOperation.Description)), w1) := by
    rw [stateFunc_of_ok IsErrNotFound id operationType session w w1 si hget]
    simp [htype, hstate, LastOperationSucceeded, LastOperationFailed, errorfS]
  refine ⟨hsf, ?_⟩
  intro conf queries hconf hq
  obtain ⟨n, rfl⟩ : ∃ n, queries = n + 1 := ⟨queries - 1, by omega⟩
  exact refreshLoop_of_error conf _ _ n 0 0 "" w w1 none "failed" _ (by rw [hconf, hsf])

/-- Witness of C3: a failed update whose description holds a formatting verb. -/
theorem stateFunc_failed_carries_description_witness :
    (resourceServiceInstanceStateFunc is404 "guid-1" "update" scriptedSession
      (scriptOf [Except.ok (instanceWith "update" "failed" "quota 100%d exceeded")])).1
      = (none, "failed", some (Error.errorf "quota 100%d exceeded")) := by
  rw [(stateFunc_failed_carries_description is404 "guid-1" "update" scriptedSession
    (scriptOf [Except.ok (instanceWith "update" "failed" "quota 100%d exceeded")]) _
    (instanceWith "update" "failed" "quota 100%d exceeded") rfl rfl rfl).1]
  rfl

/-- C5: when the status query fails, the status function answers that same error
with a nil result and an empty state if the error is not not-found, and every poll
that uses it then ends with that error; a not-found error is answered as a nil
result with no error. -/
theorem stateFunc_query_error {W : Type} (IsErrNotFound : Error → Bool)
    (id operationType : String) (session : Session W) (w w1 : W) (err : Error)
    (hget : session.ClientV2.GetServiceInstance id w = (Except.error err, w1)) :
    (IsErrNotFound err = false →
      resourceServiceInstanceStateFunc IsErrNotFound id operationType session w
        = ((none, "", some err), w1) ∧
      ∀ (conf : StateChangeConf W ServiceInstance) (queries : Nat),
        conf.Refresh = resourceServiceInstanceStateFunc IsErrNotFound id operationType session →
        0 < queries → WaitForStateContext conf queries w = ((none, some err), w1)) ∧
    (IsErrNotFound err = true →
      resourceServiceInstanceStateFunc IsErrNotFound id operationType session w
        = ((none, "", none), w1)) := by
  have hsf := stateFunc_of_error IsErrNotFound id operationType session w w1 err hget
  constructor
  · intro h
    have hsf1 : resourceServiceInstanceStateFunc IsErrNotFound id operationType session w
        = ((none, "", some err), w1) := by rw [hsf]; simp [h]
    refine ⟨hsf1, ?_⟩
    intro conf queries hconf hq
    obtain ⟨n, rfl⟩ : ∃ n, queries = n + 1 := ⟨queries - 1, by omega⟩
    exact refreshLoop_of_error conf _ _ n 0 0 "" w w1 none "" err (by rw [hconf, hsf1])
  · intro h
    rw [hsf]; simp [h]

/-- Witness of C5: a status query that answers a 500 error while an update is
awaited. -/
theorem stateFunc_query_error_witness :
    (resourceServiceInstanceStateFunc is404 "guid-1" "update" scriptedSession
      (scriptOf [Except.error (Error.client 500 "boom")])).1
      = (none, "", some (Error.client 500 "boom")) := by
  rw [((stateFunc_query_error is404 "guid-1" "update" scriptedSession
    (scriptOf [Except.error (Error.client 500 "boom")]) _ _ rfl).1 rfl).1]

/-- The status function answers the state "wrong operation", with the instance and
no error, whenever the last operation's type differs from the awaited one. -/
theorem stateFunc_of_other_type {W : Type} (IsErrNotFound : Error → Bool)
    (id operationType : String) (session : Session W) (w w1 : W) (si : ServiceInstance)
    (hget : session.ClientV2.GetServiceInstance id w = (Except.ok si, w1))
    (htype : si.LastOperation.Type_ ≠ operationType) :
    resourceServiceInstanceStateFunc IsErrNotFound id operationType session w
      = ((some si, "wrong operation", none), w1) := by
  rw [stateFunc_of_ok IsErrNotFound id operationType session w w1 si hget]
  simp [htype]

/-- A poll with the pending and target sets of create and update ends with an
unexpected-state error at the first status query that answers "wrong operation". -/
theorem poll_of_wrong_operation {W : Type} (conf : StateChangeConf W ServiceInstance)
    (queries : Nat) (w w1 : W) (si : ServiceInstance)
    (hp : conf.Pending = resourceServiceInstancePendingStates)
    (ht : conf.Target = resourceServiceInstanceSuccessStates)
    (href : conf.Refresh w = ((some si, "wrong operation", none), w1)) (hq : 0 < queries) :
    WaitForStateContext conf queries w
      = ((some si, some (Error.unexpectedState "wrong operation" ["succeeded"])), w1) := by
  obtain ⟨n, rfl⟩ : ∃ n, queries = n + 1 := ⟨queries - 1, by omega⟩
  have h := refreshLoop_of_unexpected conf
    (if conf.NotFoundChecks = 0 then 20 else conf.NotFoundChecks)
    (if conf.ContinuousTargetOccurence = 0 then 1 else conf.ContinuousTargetOccurence)
    n 0 0 "" w w1 si "wrong operation" href
    (by rw [ht]; simp [scanTarget, resourceServiceInstanceSuccessStates])
    (by rw [hp]; decide) (by rw [hp]; decide)
  rw [ht] at h
  exact h

/-- C4 (counterexample): while an update is awaited, a status query that shows a
stale "create" operation is answered as state "wrong operation" with no error; that
state is not in the pending set, and the update poll does not retry: it ends with
an unexpected-state error after that single query, although the next query would
have shown the update succeeded. -/
theorem update_poll_wrong_operation_is_terminal :
    (resourceServiceInstanceStateFunc is404 "guid-1" "update" scriptedSession
      (scriptOf [Except.ok (instanceWith "create" "succeeded" "")])).1
      = (some (instanceWith "create" "succeeded" ""), "wrong operation", none) ∧
    "wrong operation" ∉ resourceServiceInstancePendingStates ∧
    (WaitForStateContext (updateStateConf is404 scriptedSession (dataWithId "guid-1") "guid-1") 30
      (scriptOf [Except.ok (instanceWith "create" "succeeded" ""),
                 Except.ok (instanceWith "update" "succeeded" "")])).1
      = (some (instanceWith "create" "succeeded" ""),
         some (Error.unexpectedState "wrong operation" ["succeeded"])) ∧
    (WaitForStateContext (updateStateConf is404 scriptedSession (dataWithId "guid-1") "guid-1") 30
      (scriptOf [Except.ok (instanceWith "create" "succeeded" ""),
                 Except.ok (instanceWith "update" "succeeded" "")])).2.calls
      = ["get guid-1"] := by
  refine ⟨rfl, by decide, ?_, ?_⟩
  · rw [poll_of_wrong_operation _ 30 _ _ (instanceWith "create" "succeeded" "") rfl rfl rfl
      (by decide)]
  · rw [poll_of_wrong_operation _ 30 _ _ (instanceWith "create" "succeeded" "") rfl rfl rfl
      (by decide)]
    rfl

/-- C4 (amended): for every fetched instance whose last operation type differs from
the awaited one, the status function answers the instance, the state "wrong
operation" and no error; that state is in neither the pending set nor the target
set, so the polls configured by Create and by Update end at that query with an
unexpected-state error (the timeout leaving room for the query). -/
theorem wrong_operation_ends_create_and_update_polls {W : Type} (IsErrNotFound : Error → Bool)
    (id operationType : String) (session : Session W) (d : ResourceData) (queries : Nat)
    (w w1 : W) (si : ServiceInstance)
    (hget : session.ClientV2.GetServiceInstance id w = (Except.ok si, w1))
    (htype : si.LastOperation.Type_ ≠ operationType) (hq : 0 < queries) :
    resourceServiceInstanceStateFunc IsErrNotFound id operationType session w
      = ((some si, "wrong operation", none), w1) ∧
    "wrong operation" ∉ resourceServiceInstancePendingStates ∧
    "wrong operation" ∉ resourceServiceInstanceSuccessStates ∧
    (operationType = "create" →
      WaitForStateContext (createStateConf IsErrNotFound session d id) queries w
        = ((some si, some (Error.unexpectedState "wrong operation" ["succeeded"])), w1)) ∧
    (operationType = "update" →
      WaitForStateContext (updateStateConf IsErrNotFound session d id) queries w
        = ((some si, some (Error.unexpectedState "wrong operation" ["succeeded"])), w1)) := by
  have hsf := stateFunc_of_other_type IsErrNotFound id operationType session w w1 si hget htype
  refine ⟨hsf, by decide, by decide, ?_, ?_⟩
  · intro hop
    subst hop
    exact poll_of_wrong_operation _ queries w w1 si rfl rfl hsf hq
  · intro hop
    subst hop
    exact poll_of_wrong_operation _ queries w w1 si rfl rfl hsf hq

/-- Witness of C4 (amended): a create poll whose first status query shows an
"update" operation. -/
theorem wrong_operation_ends_create_and_update_polls_witness :
    (WaitForStateContext (createStateConf is404 scriptedSession (dataWithId "") "guid-1") 4
      (scriptOf [Except.ok (instanceWith "update" "in progress" "")])).1
      = (some (instanceWith "update" "in progress" ""),
         some (Error.unexpectedState "wrong operation" ["succeeded"])) := by
  rw [(wrong_operation_ends_create_and_update_polls is404 "guid-1" "create" scriptedSession
    (dataWithId "") 4 (scriptOf [Except.ok (instanceWith "update" "in progress" "")]) _
    (instanceWith "update" "in progress" "") rfl (by decide) (by decide)).2.2.2.1 rfl]

/-! ## The poll: what an error-free end means -/

/-- The scan of the target set reports done only for a state of the target set. -/
theorem scanTarget_done_mem (st : String) (cto : Nat) :
    ∀ (target : List String) (found : Bool) (occ : Nat) (a : Bool) (b : Nat),
      scanTarget st cto target found occ = (a, b, true) → st ∈ target := by
  intro target
  induction target with
  | nil => intro found occ a b h; simp [scanTarget] at h
  | cons allowed rest ih =>
    intro found occ a b h
    by_cases heq : st = allowed
    · simp [heq]
    · rw [scanTarget, if_neg heq] at h
      exact List.mem_cons_of_mem _ (ih _ _ _ _ h)

/-- A poll with a non-empty target set ends without error only at a status query
that answered a result in a target state, and it hands back that result. -/
theorem refreshLoop_no_error {W α : Type} (conf : StateChangeConf W α) (nfc cto : Nat)
    (hne : conf.Target ≠ []) :
    ∀ (fuel nt occ : Nat) (ls : String) (w w2 : W) (res : Option α),
      refreshLoop conf nfc cto fuel nt occ ls w = ((res, none), w2) →
      ∃ r st w0, conf.Refresh w0 = ((some r, st, none), w2) ∧ st ∈ conf.Target ∧
        res = some r := by
  have hlen : conf.Target.length ≠ 0 := fun h => hne (List.length_eq_zero.mp h)
  intro fuel
  induction fuel with
  | zero => intro nt occ ls w w2 res h; simp [refreshLoop] at h
  | succ n ih =>
    intro nt occ ls w w2 res h
    rw [refreshLoop] at h
    rcases hr : conf.Refresh w with ⟨⟨r0, st, e0⟩, w1⟩
    rw [hr] at h
    cases e0 with
    | some e => simp at h
    | none =>
      cases r0 with
      | none =>
        simp only [hlen, if_false] at h
        by_cases hnf : nt + 1 > nfc
        · simp [hnf] at h
        · simp only [hnf, if_false] at h
          exact ih _ _ _ _ _ _ h
      | some r =>
        simp only at h
        rcases hs : scanTarget st cto conf.Target false occ with ⟨found, occ1, done⟩
        rw [hs] at h
        cases done with
        | true =>
          simp only [Prod.mk.injEq] at h
          obtain ⟨⟨h1, -⟩, h2⟩ := h
          exact ⟨r, st, w, by rw [hr, h2], scanTarget_done_mem st cto _ _ _ _ _ hs, h1.symm⟩
        | false =>
          simp only at h
          split at h
          · simp at h
          · exact ih _ _ _ _ _ _ h

/-- The status function answers a result in state "succeeded" only for a fetched
instance whose last operation has the awaited type and state "succeeded". -/
theorem stateFunc_succeeded {W : Type} (IsErrNotFound : Error → Bool)
    (id operationType : String) (session : Session W) (w w1 : W) (si : ServiceInstance)
    (h : resourceServiceInstanceStateFunc IsErrNotFound id operationType session w
      = ((some si, "succeeded", none), w1)) :
    session.ClientV2.GetServiceInstance id w = (Except.ok si, w1) ∧
    si.LastOperation.Type_ = operationType ∧ si.LastOperation.State = "succeeded" := by
  rcases hget : session.ClientV2.GetServiceInstance id w with ⟨a, w0⟩
  cases a with
  | error err =>
    rw [stateFunc_of_error IsErrNotFound id operationType session w w0 err hget] at h
    split at h <;> simp at h
  | ok si0 =>
    rw [stateFunc_of_ok IsErrNotFound id operationType session w w0 si0 hget] at h
    by_cases ht : si0.LastOperation.Type_ = operationType
    · rw [if_pos ht] at h
      split at h
      · simp only [Prod.mk.injEq, Option.some.injEq, and_true] at h
        obtain ⟨⟨h1, h2⟩, h3⟩ := h
        subst h1; subst h3
        exact ⟨rfl, ht, h2⟩
      · split at h
        · simp at h
        · simp only [Prod.mk.injEq, Option.some.injEq, and_true] at h
          obtain ⟨⟨h1, h2⟩, h3⟩ := h
          subst h1; subst h3
          exact ⟨rfl, ht, h2⟩
    · rw [if_neg ht] at h
      simp at h

/-- The create poll ends without error only at a status query that fetched the
instance with last operation "create" in state "succeeded". -/
theorem create_poll_no_error {W : Type} (IsErrNotFound : Error → Bool) (session : Session W)
    (d : ResourceData) (guid : String) (queries : Nat) (w w2 : W) (res : Option ServiceInstance)
    (h : WaitForStateContext (createStateConf IsErrNotFound session d guid) queries w
      = ((res, none), w2)) :
    ∃ last w0, session.ClientV2.GetServiceInstance guid w0 = (Except.ok last, w2) ∧
      last.LastOperation.Type_ = "create" ∧ last.LastOperation.State = "succeeded" ∧
      res = some last := by
  obtain ⟨r, st, w0, hr, hst, hres⟩ :=
    refreshLoop_no_error (createStateConf IsErrNotFound session d guid) _ _
      (by simp [createStateConf, resourceServiceInstanceSuccessStates]) _ _ _ _ _ _ _ h
  have hst1 : st = "succeeded" := by
    simpa [createStateConf, resourceServiceInstanceSuccessStates] using hst
  subst hst1
  obtain ⟨h1, h2, h3⟩ := stateFunc_succeeded IsErrNotFound guid "create" session w0 w2 r hr
  exact ⟨r, w0, h1, h2, h3, hres⟩

/-! ## Service instance: create -/

/-- C9: `resourceServiceInstanceCreate` has four outcomes. A non-empty `json_params`
that does not decode, a remote create error, and a create poll that ends in an
error (failed operation, unexpected state, not-found give-up or timeout) each
report that error and leave the resource data, identity included, untouched.
Otherwise the poll ended at a fetched instance whose last operation is "create" in
state "succeeded", no error is reported and the identity is exactly the GUID
answered by the remote create call. -/
theorem resourceServiceInstanceCreate_outcomes {W : Type} (IsErrNotFound : Error → Bool)
    (jsonUnmarshal : String → Params → Except Error Params) (queries : Nat)
    (session : Session W) (d : ResourceData) (w : W) :
    (∀ err, 0 < (d.GetString "json_params").length →
      jsonUnmarshal (d.GetString "json_params") [] = Except.error err →
      resourceServiceInstanceCreate IsErrNotFound jsonUnmarshal queries session d w
        = ((d, [err]), w)) ∧
    (∀ params, decodeParams jsonUnmarshal (d.GetString "json_params") [] = Except.ok params →
      (∀ err w1,
        session.ClientV2.CreateServiceInstance (d.GetString "space") (d.GetString "service_plan")
          (d.GetString "name") params (d.GetList "tags") w = (Except.error err, w1) →
        resourceServiceInstanceCreate IsErrNotFound jsonUnmarshal queries session d w
          = ((d, [err]), w1)) ∧
      (∀ si w1,
        session.ClientV2.CreateServiceInstance (d.GetString "space") (d.GetString "service_plan")
          (d.GetString "name") params (d.GetList "tags") w = (Except.ok si, w1) →
        (∀ res err w2,
          WaitForStateContext (createStateConf IsErrNotFound session d si.GUID) queries w1
            = ((res, some err), w2) →
          resourceServiceInstanceCreate IsErrNotFound jsonUnmarshal queries session d w
            = ((d, [err]), w2)) ∧
        (∀ res w2,
          WaitForStateContext (createStateConf IsErrNotFound session d si.GUID) queries w1
            = ((res, none), w2) →
          resourceServiceInstanceCreate IsErrNotFound jsonUnmarshal queries session d w
            = ((d.SetId si.GUID, []), w2) ∧
          (d.SetId si.GUID).Id = si.GUID ∧
          ∃ last w0, session.ClientV2.GetServiceInstance si.GUID w0 = (Except.ok last, w2) ∧
            last.LastOperation.Type_ = "create" ∧ last.LastOperation.State = "succeeded"))) := by
  refine ⟨?_, ?_⟩
  · intro err hlen hdec
    have hd : decodeParams jsonUnmarshal (d.GetString "json_params") [] = Except.error err := by
      simp [decodeParams, hlen, hdec]
    simp only [resourceServiceInstanceCreate, hd, diagFromErr]
  · intro params hd
    refine ⟨?_, ?_⟩
    · intro err w1 hc
      simp only [resourceServiceInstanceCreate, hd, hc, diagFromErr]
    · intro si w1 hc
      refine ⟨?_, ?_⟩
      · intro res err w2 hp
        simp only [resourceServiceInstanceCreate, hd, hc, hp, diagFromErr]
      · intro res w2 hp
        refine ⟨?_, rfl, ?_⟩
        · simp only [resourceServiceInstanceCreate, hd, hc, hp]
        · obtain ⟨last, w0, h1, h2, h3, -⟩ :=
            create_poll_no_error IsErrNotFound session d si.GUID queries w1 w2 res hp
          exact ⟨last, w0, h1, h2, h3⟩

/-- Witness of C9: the create call answers GUID "guid-1" and the status queries
show in progress, in progress, succeeded; the identity becomes "guid-1". -/
theorem resourceServiceInstanceCreate_outcomes_witness :
    (resourceServiceInstanceCreate is404 unmarshalEmptyObject 3 scriptedSession (dataWithId "")
      (scriptOfCreate [Except.ok (instanceWith "create" "in progress" ""),
        Except.ok (instanceWith "create" "in progress" ""),
        Except.ok (instanceWith "create" "succeeded" "")])).1
      = ((dataWithId "").SetId "guid-1", []) := by
  rw [((((resourceServiceInstanceCreate_outcomes is404 unmarshalEmptyObject 3 scriptedSession
    (dataWithId "")
    (scriptOfCreate [Except.ok (instanceWith "create" "in progress" ""),
        Except.ok (instanceWith "create" "in progress" ""),
        Except.ok (instanceWith "create" "succeeded" "")])).2 [] rfl).2
    (instanceWith "create" "in progress" "") _ rfl).2
    (some (instanceWith "create" "succeeded" "")) _ rfl).1]
  rfl

/-! ## Service instance: import -/

/-- Reading back the key just set. -/
theorem ResourceData.Get_Set_self (d : ResourceData) (key : String) (v : Value) :
    (d.Set key v).Get key = v := by
  simp [ResourceData.Get, ResourceData.Set, List.lookup]

/-- Reading a key other than the one just set. -/
theorem ResourceData.Get_Set_other (d : ResourceData) (key key1 : String) (v : Value)
    (h : key1 ≠ key) : (d.Set key v).Get key1 = d.Get key1 := by
  have hb : (key1 == key) = false := by simpa using h
  simp [ResourceData.Get, ResourceData.Set, List.lookup, hb]

/-- What `resourceServiceInstanceRead` stores for a fetched instance. -/
theorem resourceServiceInstanceRead_of_ok {W : Type} (IsErrNotFound : Error → Bool)
    (session : Session W) (d : ResourceData) (w w1 : W) (si : ServiceInstance)
    (hget : session.ClientV2.GetServiceInstance d.Id w = (Except.ok si, w1)) :
    resourceServiceInstanceRead IsErrNotFound session d w
      = (((((d.Set "name" (Value.str si.Name)).Set "service_plan"
            (Value.str si.ServicePlanGUID)).Set "space" (Value.str si.SpaceGUID)).Set "tags"
            (match si.Tags with
             | some tags => Value.list tags
             | none => Value.null), []), w1) := by
  unfold resourceServiceInstanceRead
  rw [hget]
  cases h : si.Tags <;> simp only [h]

/-- C10: when the remote instance is there for both fetches of an import,
`resourceServiceInstanceImport` succeeds with one resource whose two flags
`replace_on_service_plan_change` and `replace_on_params_change` read false whatever
they were before, whose identity is unchanged, and whose `name`, `service_plan`,
`space` and `tags` are the fetched values, equal to what
`resourceServiceInstanceRead` stores for the same identity at that fetch. -/
theorem resourceServiceInstanceImport_resets_flags {W : Type} (IsErrNotFound : Error → Bool)
    (session : Session W) (d : ResourceData) (w w1 w2 : W) (si1 si2 : ServiceInstance)
    (h1 : session.ClientV2.GetServiceInstance d.Id w = (Except.ok si1, w1))
    (h2 : session.ClientV2.GetServiceInstance d.Id w1 = (Except.ok si2, w2)) :
    ∃ d1, resourceServiceInstanceImport IsErrNotFound session d w = (Except.ok [d1], w2) ∧
      d1.GetBool "replace_on_service_plan_change" = false ∧
      d1.GetBool "replace_on_params_change" = false ∧
      d1.Id = d.Id ∧
      d1.Get "name" = Value.str si2.Name ∧
      d1.Get "service_plan" = Value.str si2.ServicePlanGUID ∧
      d1.Get "space" = Value.str si2.SpaceGUID ∧
      d1.Get "tags" = (match si2.Tags with
        | some tags => Value.list tags
        | none => Value.null) ∧
      ∀ d0 : ResourceData, d0.Id = d.Id →
        ∀ key ∈ ["name", "service_plan", "space", "tags"],
          d1.Get key = (resourceServiceInstanceRead IsErrNotFound session d0 w1).1.1.Get key := by
  let d6 := (((((d.Set "name" (Value.str si1.Name)).Set "service_plan"
      (Value.str si1.ServicePlanGUID)).Set "space" (Value.str si1.SpaceGUID)).Set "tags"
      (Value.ofStrings si1.Tags)).Set "replace_on_service_plan_change" (Value.bool false)).Set
      "replace_on_params_change" (Value.bool false)
  have hid : d6.Id = d.Id := rfl
  have hread := resourceServiceInstanceRead_of_ok IsErrNotFound session d6 w1 w2 si2
    (by rw [hid]; exact h2)
  refine ⟨(((d6.Set "name" (Value.str si2.Name)).Set "service_plan"
      (Value.str si2.ServicePlanGUID)).Set "space" (Value.str si2.SpaceGUID)).Set "tags"
      (match si2.Tags with
       | some tags => Value.list tags
       | none => Value.null), ?_, ?_, ?_, ?_, ?_, ?_, ?_, ?_, ?_⟩
  · unfold resourceServiceInstanceImport
    rw [h1]
    simp only [ImportReadContext]
    rw [hread]
  · simp [ResourceData.GetBool, ResourceData.Get, ResourceData.Set, List.lookup]
  · simp [ResourceData.GetBool, ResourceData.Get, ResourceData.Set, List.lookup]
  · rfl
  · simp [ResourceData.Get, ResourceData.Set, List.lookup]
  · simp [ResourceData.Get, ResourceData.Set, List.lookup]
  · simp [ResourceData.Get, ResourceData.Set, List.lookup]
  · simp [ResourceData.Get, ResourceData.Set, List.lookup]
  · intro d0 hd0 key hkey
    rw [resourceServiceInstanceRead_of_ok IsErrNotFound session d0 w1 w2 si2
      (by rw [hd0]; exact h2)]
    simp only [List.mem_cons, List.mem_singleton, List.not_mem_nil, or_false] at hkey
    rcases hkey with rfl | rfl | rfl | rfl <;>
      simp [ResourceData.Get, ResourceData.Set, List.lookup]

/-- Witness of C10: an import over resource data whose two flags were true. -/
theorem resourceServiceInstanceImport_resets_flags_witness :
    ∃ d1, resourceServiceInstanceImport is404 scriptedSession
        (((dataWithId "guid-1").Set "replace_on_service_plan_change" (Value.bool true)).Set
          "replace_on_params_change" (Value.bool true))
        (scriptOf [Except.ok (instanceWith "create" "succeeded" ""),
          Except.ok (instanceWith "create" "succeeded" "")])
        = (Except.ok [d1], (scriptOf []).record "get guid-1" |>.record "get guid-1") ∧
      d1.GetBool "replace_on_service_plan_change" = false ∧
      d1.GetBool "replace_on_params_change" = false ∧
      d1.Get "name" = Value.str "db" := by
  obtain ⟨d1, h, hf1, hf2, -, hname, -⟩ :=
    resourceServiceInstanceImport_resets_flags is404 scriptedSession
      (((dataWithId "guid-1").Set "replace_on_service_plan_change" (Value.bool true)).Set
        "replace_on_params_change" (Value.bool true))
      (scriptOf [Except.ok (instanceWith "create" "succeeded" ""),
        Except.ok (instanceWith "create" "succeeded" "")]) _ _
      (instanceWith "create" "succeeded" "") (instanceWith "create" "succeeded" "") rfl rfl
  exact ⟨d1, h, hf1, hf2, hname⟩

/-! ## Composite identities -/

/-- A string with no separator is a single part. -/
theorem splitParts_of_not_mem (sep : Char) :
    ∀ l : List Char, sep ∉ l → splitParts sep l = [l] := by
  intro l
  induction l with
  | nil => intro _; rfl
  | cons c cs ih =>
    intro h
    have hc : c ≠ sep := fun e => h (by simp [e])
    have hcs : sep ∉ cs := fun e => h (List.mem_cons_of_mem _ e)
    simp [splitParts, hc, ih hcs]

/-- The first separator ends the first part. -/
theorem splitParts_append (sep : Char) (b : List Char) :
    ∀ a : List Char, sep ∉ a → splitParts sep (a ++ sep :: b) = a :: splitParts sep b := by
  intro a
  induction a with
  | nil => intro _; simp [splitParts]
  | cons c cs ih =>
    intro h
    have hc : c ≠ sep := fun e => h (by simp [e])
    have hcs : sep ∉ cs := fun e => h (List.mem_cons_of_mem _ e)
    simp [splitParts, hc, ih hcs]

/-- C7: for org and domain identifiers that do not contain the separator, the
identity stored by `resourcePrivateDomainAccessCreate` is `computeID org domain`,
`parseID` decodes it to exactly (org, domain) with no error, and Read and Delete on
that identity address the remote client with that org and that domain. -/
theorem parseID_computeID_roundtrip {W : Type} (sep : Char) (session : Session W)
    (d : ResourceData) (w w1 : W)
    (horg : sep ∉ (d.GetString "org").data) (hdomain : sep ∉ (d.GetString "domain").data)
    (hset : session.ClientV2.SetOrganizationPrivateDomain (d.GetString "domain")
      (d.GetString "org") w = (none, w1)) :
    resourcePrivateDomainAccessCreate (computeID sep) session d w
      = ((d.SetId (computeID sep (d.GetString "org") (d.GetString "domain")), []), w1) ∧
    parseID sep (computeID sep (d.GetString "org") (d.GetString "domain"))
      = (d.GetString "org", d.GetString "domain", none) ∧
    (∀ (d1 : ResourceData) (w2 : W),
      d1.Id = computeID sep (d.GetString "org") (d.GetString "domain") →
      resourcePrivateDomainAccessRead (parseID sep) session d1 w2
        = readPrivateDomainAccess (d.GetString "org") (d.GetString "domain") session d1 w2 ∧
      resourcePrivateDomainAccessDelete (parseID sep) session d1 w2
        = ((d1, diagFromErr (session.ClientV2.DeleteOrganizationPrivateDomain
            (d.GetString "org") (d.GetString "domain") w2).1),
           (session.ClientV2.DeleteOrganizationPrivateDomain
            (d.GetString "org") (d.GetString "domain") w2).2)) := by
  have hparse : parseID sep (computeID sep (d.GetString "org") (d.GetString "domain"))
      = (d.GetString "org", d.GetString "domain", none) := by
    simp only [parseID, computeID]
    rw [splitParts_append sep _ _ horg, splitParts_of_not_mem sep _ hdomain]
  refine ⟨?_, hparse, ?_⟩
  · simp only [resourcePrivateDomainAccessCreate, hset]
  · intro d1 w2 hid
    constructor
    · simp only [resourcePrivateDomainAccessRead, hid, hparse]
    · simp only [resourcePrivateDomainAccessDelete, hid, hparse]

/-- Witness of C7: org "org-1" and domain "dom-1" with the separator '/'. -/
theorem parseID_computeID_roundtrip_witness :
    (resourcePrivateDomainAccessCreate (computeID '/') scriptedSession
      (accessData "org-1" "dom-1") (scriptOf [])).1
      = ((accessData "org-1" "dom-1").SetId "org-1/dom-1", []) ∧
    parseID '/' "org-1/dom-1" = ("org-1", "dom-1", none) := by
  have h := parseID_computeID_roundtrip '/' scriptedSession (accessData "org-1" "dom-1")
    (scriptOf []) _ (by decide) (by decide) rfl
  exact ⟨by rw [h.1]; rfl, h.2.1⟩

/-- Whatever `parseID` answers, Read goes on to the remote client with the parts
it was handed and never reports the decoding error. -/
theorem resourcePrivateDomainAccessRead_drops_parse_error {W : Type}
    (parseID : String → String × String × Option Error) (session : Session W)
    (d : ResourceData) (w : W) (p1 p2 : String) (perr : Option Error)
    (h : parseID d.Id = (p1, p2, perr)) :
    resourcePrivateDomainAccessRead parseID session d w
      = readPrivateDomainAccess p1 p2 session d w := by
  simp only [resourcePrivateDomainAccessRead, h]

/-- C8 (failing input): the identity "not-a-composite-id" does not decode (`parseID`
answers a malformed-identity error), yet Read, Delete and the importer report no
error: Read asks the remote client for the private domains of the org "" and
clears the identity, Delete asks it to remove domain "" from org "". -/
theorem malformed_identity_reaches_remote_client :
    (parseID '/' "not-a-composite-id").2.2 = some (Error.malformedID "not-a-composite-id") ∧
    (resourcePrivateDomainAccessRead (parseID '/') scriptedSession
      (dataWithId "not-a-composite-id") (scriptOf [])).1
      = (dataWithId "", []) ∧
    (resourcePrivateDomainAccessRead (parseID '/') scriptedSession
      (dataWithId "not-a-composite-id") (scriptOf [])).2.calls = ["get-domains "] ∧
    (resourcePrivateDomainAccessDelete (parseID '/') scriptedSession
      (dataWithId "not-a-composite-id") (scriptOf [])).1
      = (dataWithId "not-a-composite-id", []) ∧
    (resourcePrivateDomainAccessDelete (parseID '/') scriptedSession
      (dataWithId "not-a-composite-id") (scriptOf [])).2.calls = ["delete-domain  "] ∧
    (resourcePrivateDomainAccessImport (parseID '/') scriptedSession
      (dataWithId "not-a-composite-id") (scriptOf [])).1 = Except.ok [dataWithId ""] := by
  refine ⟨by decide, ?_, ?_, ?_, ?_, ?_⟩ <;> rfl

/-! ## Service instance: forced replacement on a plan change -/

/-- The key "params" is not a key of the service instance schema, so it never
has a change. -/
theorem HasChange_params (d : ResourceDiff) (hs : d.schema = resourceServiceInstanceSchema) :
    d.HasChange "params" = false := by
  have hl : d.schema.lookup "params" = none := by rw [hs]; decide
  simp [ResourceDiff.HasChange, ResourceDiff.GetOld, ResourceDiff.Get, hl]

/-- The key "service_plan" is a key of the service instance schema that is not
`ForceNew` by itself. -/
theorem lookup_service_plan :
    resourceServiceInstanceSchema.lookup "service_plan"
      = some { Type_ := ValueType.TypeString, Required := true, Optional := false,
               ForceNew := false, Default := none } := by
  rfl

/-- The rule on "params" changes nothing on a service instance plan. -/
theorem ForceNewIf_params (f : ResourceDiff → Bool) (d : ResourceDiff)
    (hs : d.schema = resourceServiceInstanceSchema) :
    ForceNewIf "params" f d = (d, none) := by
  unfold ForceNewIf
  by_cases hfd : f d = true
  · simp [hfd, ResourceDiff.ForceNew, HasChange_params d hs]
  · simp [hfd]

/-- What the service instance's `CustomizeDiff` does: it flags "service_plan" when
the flag reads true and the plan changed, and nothing else. -/
theorem resourceServiceInstanceCustomizeDiff_eq (d : ResourceDiff)
    (hs : d.schema = resourceServiceInstanceSchema) :
    resourceServiceInstanceCustomizeDiff d
      = (if d.GetBool "replace_on_service_plan_change" && d.HasChange "service_plan" then
          { d with forcedNewKeys := "service_plan" :: d.forcedNewKeys }
         else d, []) := by
  have hl : d.schema.lookup "service_plan"
      = some { Type_ := ValueType.TypeString, Required := true, Optional := false,
               ForceNew := false, Default := none } := by
    rw [hs]; exact lookup_service_plan
  unfold resourceServiceInstanceCustomizeDiff
  simp only [All]
  by_cases hflag : d.GetBool "replace_on_service_plan_change" = true
  · by_cases hch : d.HasChange "service_plan" = true
    · have h1 : ForceNewIf "service_plan" (fun d =>
          if d.GetBool "replace_on_service_plan_change" then true else false) d
          = ({ d with forcedNewKeys := "service_plan" :: d.forcedNewKeys }, none) := by
        simp [ForceNewIf, ResourceDiff.ForceNew, hflag, hch, hl]
      rw [h1]
      simp only []
      rw [ForceNewIf_params _
        { d with forcedNewKeys := "service_plan" :: d.forcedNewKeys } hs]
      simp [hflag, hch]
    · have h1 : ForceNewIf "service_plan" (fun d =>
          if d.GetBool "replace_on_service_plan_change" then true else false) d
          = (d, none) := by
        simp [ForceNewIf, ResourceDiff.ForceNew, hflag, hch]
      rw [h1]
      simp only []
      rw [ForceNewIf_params _ _ hs]
      simp [hflag, hch]
  · have h1 : ForceNewIf "service_plan" (fun d =>
        if d.GetBool "replace_on_service_plan_change" then true else false) d
        = (d, none) := by
      simp [ForceNewIf, hflag]
    rw [h1]
    simp only []
    rw [ForceNewIf_params _ _ hs]
    simp [hflag]

/-- After `CustomizeDiff`, the change of "service_plan" requires a new resource
exactly when it changed and the flag reads true. -/
theorem RequiresNew_service_plan (d : ResourceDiff)
    (hs : d.schema = resourceServiceInstanceSchema)
    (hf : "service_plan" ∉ d.forcedNewKeys) :
    (resourceServiceInstanceCustomizeDiff d).1.RequiresNew "service_plan"
      = (d.HasChange "service_plan" && d.GetBool "replace_on_service_plan_change") := by
  have hl : d.schema.lookup "service_plan"
      = some { Type_ := ValueType.TypeString, Required := true, Optional := false,
               ForceNew := false, Default := none } := by
    rw [hs]; exact lookup_service_plan
  rw [resourceServiceInstanceCustomizeDiff_eq d hs]
  by_cases hflag : d.GetBool "replace_on_service_plan_change" = true
  · by_cases hch : d.HasChange "service_plan" = true
    · have hch1 : ({ d with forcedNewKeys := "service_plan" :: d.forcedNewKeys } :
          ResourceDiff).HasChange "service_plan" = true := hch
      simp [hflag, hch, ResourceDiff.RequiresNew, hch1]
    · simp [hflag, hch, ResourceDiff.RequiresNew]
  · have hc : d.forcedNewKeys.contains "service_plan" = false := by simpa using hf
    have hfl : d.GetBool "replace_on_service_plan_change" = false := by simpa using hflag
    simp only [hfl, Bool.false_and, Bool.and_false, ResourceDiff.RequiresNew]
    simp [hl, hf]

/-- C6: on a plan of the service instance in which `service_plan` is not yet
flagged, after the resource's `CustomizeDiff` the change of `service_plan` requires
destroy-and-recreate exactly when `service_plan` changed and
`replace_on_service_plan_change` reads true; the three cases follow, a flag absent
from the configuration reads false and forces nothing, and `CustomizeDiff` answers
no error. -/
theorem service_plan_requires_new_iff (d : ResourceDiff)
    (hs : d.schema = resourceServiceInstanceSchema)
    (hf : "service_plan" ∉ d.forcedNewKeys) :
    ((resourceServiceInstanceCustomizeDiff d).1.RequiresNew "service_plan"
      = (d.HasChange "service_plan" && d.GetBool "replace_on_service_plan_change")) ∧
    (d.HasChange "service_plan" = true → d.GetBool "replace_on_service_plan_change" = false →
      (resourceServiceInstanceCustomizeDiff d).1.RequiresNew "service_plan" = false) ∧
    (d.HasChange "service_plan" = true → d.GetBool "replace_on_service_plan_change" = true →
      (resourceServiceInstanceCustomizeDiff d).1.RequiresNew "service_plan" = true) ∧
    (d.HasChange "service_plan" = false →
      (resourceServiceInstanceCustomizeDiff d).1.RequiresNew "service_plan" = false) ∧
    (d.config.lookup "replace_on_service_plan_change" = none →
      d.GetBool "replace_on_service_plan_change" = false ∧
      (resourceServiceInstanceCustomizeDiff d).1.RequiresNew "service_plan" = false) ∧
    (resourceServiceInstanceCustomizeDiff d).2 = [] := by
  have h := RequiresNew_service_plan d hs hf
  have hflag : d.config.lookup "replace_on_service_plan_change" = none →
      d.GetBool "replace_on_service_plan_change" = false := by
    intro hc
    have hl : d.schema.lookup "replace_on_service_plan_change"
        = some { Type_ := ValueType.TypeBool, Required := false, Optional := true,
                 ForceNew := false, Default := some (Value.bool false) } := by
      rw [hs]; rfl
    simp [ResourceDiff.GetBool, ResourceDiff.Get, hl, hc]
  refine ⟨h, ?_, ?_, ?_, ?_, ?_⟩
  · intro hch hfl; rw [h, hch, hfl]; rfl
  · intro hch hfl; rw [h, hch, hfl]; rfl
  · intro hch; rw [h, hch]; rfl
  · intro hc
    refine ⟨hflag hc, ?_⟩
    rw [h, hflag hc]; simp
  · rw [resourceServiceInstanceCustomizeDiff_eq d hs]

/-- Witness of C6: a plan that changes `service_plan` from "plan-1" to "plan-2"
with the flag set to true. -/
theorem service_plan_requires_new_iff_witness :
    (resourceServiceInstanceCustomizeDiff
      (planOf [("service_plan", Value.str "plan-1")]
        [("service_plan", Value.str "plan-2"),
         ("replace_on_service_plan_change", Value.bool true)])).1.RequiresNew "service_plan"
      = true :=
  (service_plan_requires_new_iff
    (planOf [("service_plan", Value.str "plan-1")]
      [("service_plan", Value.str "plan-2"),
       ("replace_on_service_plan_change", Value.bool true)]) rfl (by decide)).2.2.1
    (by decide) (by decide)

/-! ## Service instance: forced replacement on a parameters change -/

/-- Whatever the flags read, the service instance's `CustomizeDiff` never makes a
change of `json_params` require a new resource: its second rule names the key
"params", which the schema does not have. -/
theorem json_params_never_requires_new (d : ResourceDiff)
    (hs : d.schema = resourceServiceInstanceSchema)
    (hf : "json_params" ∉ d.forcedNewKeys) :
    (resourceServiceInstanceCustomizeDiff d).1.RequiresNew "json_params" = false := by
  have hl : d.schema.lookup "json_params"
      = some { Type_ := ValueType.TypeString, Required := false, Optional := true,
               ForceNew := false, Default := some (Value.str "") } := by
    rw [hs]; rfl
  have hc : d.forcedNewKeys.contains "json_params" = false := by simpa using hf
  rw [resourceServiceInstanceCustomizeDiff_eq d hs]
  by_cases hcond : (d.GetBool "replace_on_service_plan_change" && d.HasChange "service_plan") = true
  · rw [if_pos hcond]
    simp [ResourceDiff.RequiresNew, hl, hf]
  · rw [if_neg hcond]
    simp [ResourceDiff.RequiresNew, hl, hf]

/-- C11 (failing input): on a plan that changes `json_params` with
`replace_on_params_change` set to true, the parameters changed and the flag reads
true, yet after `CustomizeDiff` the change of `json_params` does not require a new
resource and no key is flagged: the rule guarded by the flag names the key "params",
which is not a key of the schema (the parameters are held by "json_params"), so its
`ForceNew` call fails, whereas the key "service_plan" of the first rule is a schema
key. -/
theorem params_rule_names_a_key_outside_the_schema :
    (planOf [("json_params", Value.str "\x7b\"size\":1\x7d")]
      [("json_params", Value.str "\x7b\"size\":2\x7d"),
       ("replace_on_params_change", Value.bool true)]).HasChange "json_params" = true ∧
    (planOf [("json_params", Value.str "\x7b\"size\":1\x7d")]
      [("json_params", Value.str "\x7b\"size\":2\x7d"),
       ("replace_on_params_change", Value.bool true)]).GetBool "replace_on_params_change"
      = true ∧
    (resourceServiceInstanceCustomizeDiff
      (planOf [("json_params", Value.str "\x7b\"size\":1\x7d")]
        [("json_params", Value.str "\x7b\"size\":2\x7d"),
         ("replace_on_params_change", Value.bool true)])).1.RequiresNew "json_params"
      = false ∧
    (resourceServiceInstanceCustomizeDiff
      (planOf [("json_params", Value.str "\x7b\"size\":1\x7d")]
        [("json_params", Value.str "\x7b\"size\":2\x7d"),
         ("replace_on_params_change", Value.bool true)])).1.forcedNewKeys = [] ∧
    (planOf [("json_params", Value.str "\x7b\"size\":1\x7d")]
      [("json_params", Value.str "\x7b\"size\":2\x7d"),
       ("replace_on_params_change", Value.bool true)]).ForceNew "params"
      = Except.error (Error.errorf "ForceNew: No changes for params") ∧
    resourceServiceInstanceSchema.lookup "params" = none ∧
    (resourceServiceInstanceSchema.lookup "json_params").isSome = true ∧
    (resourceServiceInstanceSchema.lookup "service_plan").isSome = true := by
  refine ⟨by decide, by decide, ?_, ?_, ?_, by decide, by decide, by decide⟩
  · exact json_params_never_requires_new _ rfl (by decide)
  · rw [resourceServiceInstanceCustomizeDiff_eq _ rfl]
    rfl
  · rfl

/-! ## Config resource: the list handed to `getFeatureFlags` -/

/-- On a list with at least one element `getFeatureFlags` answers its flags. -/
theorem getFeatureFlags_of_ne_nil (v : List FlagsBlock) (h : v ≠ []) :
    ∃ ffs, getFeatureFlags v = Except.ok ffs := by
  cases v with
  | nil => exact absurd rfl h
  | cons flags rest => exact ⟨_, rfl⟩

/-- On the empty list `getFeatureFlags` panics at its index expression. -/
theorem getFeatureFlags_nil : getFeatureFlags [] = Except.error (Panic.indexOutOfRange 0 0) :=
  rfl

/-- The function `resourceConfigCreate` never panics: it calls `getFeatureFlags` only
under `GetOk`, which answers true only for a list with at least one element. -/
theorem resourceConfigCreate_no_panic {W : Type} (session : Option (ConfigSession W))
    (d : ConfigData) (w : W) : ∃ r, resourceConfigCreate session d w = Except.ok r := by
  cases session with
  | none => exact ⟨_, rfl⟩
  | some session =>
    unfold resourceConfigCreate
    by_cases hne : d.new = []
    · have hok : d.GetOk = (d.new, false) := by simp [ConfigData.GetOk, hne]
      simp only [hok]
      exact ⟨_, rfl⟩
    · have hok : d.GetOk = (d.new, true) := by
        simp [ConfigData.GetOk, hne]
      obtain ⟨ffs, hffs⟩ := getFeatureFlags_of_ne_nil d.new hne
      simp only [hok, hffs]
      rcases hset : setFeatureFlags session.ClientV2 ffs w with ⟨e, w1⟩
      cases e with
      | none => exact ⟨_, rfl⟩
      | some err => exact ⟨_, rfl⟩

/-- The function `resourceConfigUpdate` panics at the index expression of
`getFeatureFlags` exactly when `feature_flags` has changed and now reads as the
empty list. -/
theorem resourceConfigUpdate_index_panic_iff {W : Type} (session : Option (ConfigSession W))
    (d : ConfigData) (w : W) :
    resourceConfigUpdate session d w = Except.error (Panic.indexOutOfRange 0 0)
      ↔ d.HasChange = true ∧ d.Get = [] := by
  unfold resourceConfigUpdate
  by_cases hch : d.HasChange = true
  · rw [if_pos hch]
    by_cases hne : d.Get = []
    · rw [hne, getFeatureFlags_nil]
      simp [hch]
    · obtain ⟨ffs, hffs⟩ := getFeatureFlags_of_ne_nil d.Get hne
      rw [hffs]
      simp only [hch, hne, and_false, iff_false]
      cases ffs with
      | nil => simp
      | cons ff rest =>
        cases session with
        | none => simp
        | some session =>
          simp only
          rcases hset : setFeatureFlags session.ClientV2 (ff :: rest) w with ⟨e, w1⟩
          cases e <;> simp
  · rw [if_neg hch]
    simp [hch]

/-- C12 (failing input): the prior state holds one `feature_flags` block and the
configuration no longer has the block. `feature_flags` has changed and `d.Get`
reads the empty list, so `resourceConfigUpdate` hands `getFeatureFlags` a list with
no element and the program panics at its index 0. On the same data
`resourceConfigCreate` does not call `getFeatureFlags`, as `GetOk` answers false,
and sets no flag. -/
theorem resourceConfigUpdate_panics_when_block_removed :
    removedBlockData.HasChange = true ∧
    removedBlockData.Get.length = 0 ∧
    resourceConfigUpdate (some loggingConfigSession) removedBlockData []
      = Except.error (Panic.indexOutOfRange 0 0) ∧
    removedBlockData.GetOk.2 = false ∧
    resourceConfigCreate (some loggingConfigSession) removedBlockData []
      = Except.ok ((removedBlockData.Set [[("user_org_creation", "enabled")]], []), []) := by
  refine ⟨by decide, rfl, ?_, rfl, rfl⟩
  exact (resourceConfigUpdate_index_panic_iff _ _ _).mpr ⟨by decide, rfl⟩

end Cloudfoundry
